import Mathlib

/-!
Verification of the WhatsApp OTP gateway backend (wa-otp-bend).

This file shallowly embeds the parts of the codebase that the frozen claims
talk about:

* the monolithic server (`server.js` variant, `src/unnamed/part_003`):
  `formatPhoneNumber`, `validateApiKey` (via `crypto.timingSafeEqual`),
  `checkRateLimit`, `sendWebhookNotification`, `sendWhatsAppMessage` and the
  `POST /api/send-otp` route handler, modelled as the pure function `sendOtp`
  over an environment (database snapshot, connection flag, per-attempt send
  outcomes, webhook transport outcome) producing an HTTP response together
  with a trace of observable events (record saves, send attempts, webhook
  call, socket emit, response);
* the helpers module (`src/unnamed/part_004`): its own `formatPhoneNumber`;
* the reconnect machinery of `src/services/whatsapp.js`: `scheduleReconnect`
  and the body of its timer, driven by transient link-closed events.

Strings are modelled as lists of characters.  Database writes are modelled as
always succeeding; the schema-level constraint on `retry_count` declared in
`LogSchema` is modelled separately as `retryCountWithinSchema` so that the
code's own declared bound can be compared with what the retry loop writes.
-/

namespace WaOtp

/-- Constant from the monolithic server: `const MAX_RETRY_ATTEMPTS = 3`. -/
def MAX_RETRY_ATTEMPTS : Nat := 3

/-- Record status, from the `LogSchema` enum `['success', 'failed', 'pending']`. -/
inductive Status
  | pending
  | success
  | failed
deriving Repr, DecidableEq

/-- The fields of a `Log` document (DispatchRecord) that the claims observe. -/
structure LogRecord where
  id : String
  phone : List Char
  message : List Char
  status : Status
  error_message : Option String
  retry_count : Nat
  delivery_time : Option Nat
deriving Repr, DecidableEq

/-- The `LogSchema` declares `retry_count` with `min: 0, max: MAX_RETRY_ATTEMPTS`;
this predicate is that declared schema bound. -/
def retryCountWithinSchema (r : LogRecord) : Bool :=
  r.retry_count ≤ MAX_RETRY_ATTEMPTS

/-- The fields of the `Settings` document that the dispatch pipeline reads. -/
structure SettingsT where
  webhook_url : String
  api_key : List Char
  webhook_enabled : Bool
  max_daily_messages : Nat
deriving Repr, DecidableEq

/-- Body of a `POST /api/send-otp` request: `{ phone, message, api_key }`. -/
structure SendOtpRequest where
  phone : List Char
  message : List Char
  api_key : List Char
deriving Repr, DecidableEq

/-- Keep only digit characters: `phone.replace(/\D/g, '')`. -/
def cleanDigits (s : List Char) : List Char :=
  s.filter Char.isDigit

/-- `cleaned.startsWith('62')`. -/
def startsWith62 : List Char → Bool
  | '6' :: '2' :: _ => true
  | _ => false

/-- `cleaned.startsWith('0')`. -/
def startsWith0 : List Char → Bool
  | '0' :: _ => true
  | _ => false

/-- `formatPhoneNumber` from the monolithic server: strips non-digits, throws
(`Except.error`) when the digit count is outside 10..15, prefixes country
code 62 (converting a leading 0) when the number does not start with 62 and
has at most 12 digits. -/
def formatPhoneNumber (phone : List Char) : Except String (List Char) :=
  let cleaned := cleanDigits phone
  if cleaned.length < 10 ∨ 15 < cleaned.length then
    Except.error "Invalid phone number format"
  else if startsWith62 cleaned = false ∧ cleaned.length ≤ 12 then
    if startsWith0 cleaned then
      Except.ok ('6' :: '2' :: cleaned.drop 1)
    else
      Except.ok ('6' :: '2' :: cleaned)
  else
    Except.ok cleaned

/-- `formatPhoneNumber` from the helpers module: strips non-digits and returns
the result unchanged; the missing-62 case merely logs a warning and never
throws and never prefixes. -/
def formatPhoneNumberHelpers (phone : List Char) : List Char :=
  cleanDigits phone

/-- `crypto.timingSafeEqual` on the two key buffers: throws (`Except.error`)
when the byte lengths differ, otherwise reports equality (the comparison
being constant-time is a timing property outside the functional model). -/
def timingSafeEqual (a b : List Char) : Except Unit Bool :=
  if a.length = b.length then Except.ok (a = b) else Except.error ()

/-- `validateApiKey` from the monolithic server: falsy arguments short-circuit
to `false`; otherwise the result (or exception) of `timingSafeEqual`. -/
def validateApiKey (providedKey storedKey : List Char) : Except Unit Bool :=
  if providedKey.isEmpty ∨ storedKey.isEmpty then Except.ok false
  else timingSafeEqual providedKey storedKey

/-- `checkRateLimit`: allows when no Settings row exists; allows when the
count query against the store errors (fail-open); otherwise allows exactly
when today's (success or pending) count is below `max_daily_messages`.
The `todayCount` argument stands for the store's answer to the query
`created_at within today ∧ status ∈ [success, pending]`. -/
def checkRateLimit (settings : Option SettingsT) (todayCount : Except Unit Nat) : Bool :=
  match settings with
  | none => true
  | some s =>
    match todayCount with
    | Except.error _ => true
    | Except.ok c => decide (c < s.max_daily_messages)

/-- Outcome of the webhook HTTP POST, as the environment resolves it. -/
inductive WebhookOutcome
  | ok
  | non2xx (code : Nat)
  | transportError (msg : String)
deriving Repr, DecidableEq

/-- `sendWebhookNotification`: no-op (`none`) when settings are missing,
webhooks are disabled, or the URL is unset; otherwise performs the POST and
swallows every outcome (non-2xx and transport errors are only logged).
The returned value is what the call observed, never an exception. -/
def sendWebhookNotification (settings : Option SettingsT) (outcome : WebhookOutcome) :
    Option WebhookOutcome :=
  match settings with
  | none => none
  | some s =>
    if s.webhook_enabled = false ∨ s.webhook_url = "" then none
    else some outcome

/-- Validation that mongoose runs on every `log.save()` against `LogSchema`:
the phone must reduce to 10–15 digits after stripping non-digits, the
message is required (nonempty) with maxlength 1000, `error_message` may be
null but is capped at 500 characters, and `retry_count` is bounded by
`min: 0` (by the type) and `max: MAX_RETRY_ATTEMPTS`.  The status enum is
enforced by the `Status` type.  `id` is always the nonempty output of
`generateId`, so its required/unique constraints are not modelled. -/
def validateLog (r : LogRecord) : Bool :=
  decide (10 ≤ (cleanDigits r.phone).length) &&
  decide ((cleanDigits r.phone).length ≤ 15) &&
  !r.message.isEmpty &&
  decide (r.message.length ≤ 1000) &&
  (match r.error_message with
   | none => true
   | some e => decide (e.length ≤ 500)) &&
  decide (r.retry_count ≤ MAX_RETRY_ATTEMPTS)

/-- Stands for the message of the mongoose `ValidationError` thrown when a
save fails schema validation; its exact library-defined text is irrelevant
to the claims. -/
def mongooseValidationMessage : String := "Log validation failed"

/-- Result shape returned by `sendWhatsAppMessage`:
`{ success, delivery_time, error? }`. -/
structure SendResultT where
  success : Bool
  delivery_time : Nat
  error : Option String
deriving Repr, DecidableEq

/-- `sendWhatsAppMessage(phone, message, logId)`: throws (caught into a
failure result) when not connected; formats the phone again and fails on a
format exception; otherwise the outcome is decided by the race between the
send promise and the `MESSAGE_TIMEOUT` timer, which the environment resolves
as `outcome` (a timeout loses with error `Message sending timeout`). -/
def sendWhatsAppMessage (connected : Bool) (phone : List Char) (outcome : SendResultT) :
    SendResultT :=
  if connected = false then
    { success := false, delivery_time := 0,
      error := some "WhatsApp not connected or session not initialized" }
  else
    match formatPhoneNumber phone with
    | Except.error e => { success := false, delivery_time := 0, error := some e }
    | Except.ok _ => outcome

/-- Final state of the retry loop of the `/api/send-otp` handler. -/
structure LoopOut where
  result : SendResultT
  lastError : Option String
  retryCount : Nat
  attemptsMade : List Nat
deriving Repr, DecidableEq

/-- The retry loop `for (attempt = 0; attempt <= MAX_RETRY_ATTEMPTS; attempt++)`:
breaks on the first success; on a failure records `lastError` and sets
`retry_count = attempt + 1`, continuing while `attempt < MAX_RETRY_ATTEMPTS`
(after an inter-attempt delay that the model elides).  `fuel` is the number
of iterations the loop guard still permits, initially
`MAX_RETRY_ATTEMPTS + 1`. -/
def runAttempts (connected : Bool) (phone : List Char) (outcome : Nat → SendResultT) :
    Nat → Nat → Nat → Option String → LoopOut
  | 0, _, retryCount, lastError =>
      { result := { success := false, delivery_time := 0, error := none },
        lastError := lastError, retryCount := retryCount, attemptsMade := [] }
  | fuel + 1, attempt, retryCount, lastError =>
      let r := sendWhatsAppMessage connected phone (outcome attempt)
      if r.success then
        { result := r, lastError := lastError, retryCount := retryCount,
          attemptsMade := [attempt] }
      else if fuel = 0 then
        { result := r, lastError := r.error, retryCount := attempt + 1,
          attemptsMade := [attempt] }
      else
        let rest := runAttempts connected phone outcome fuel (attempt + 1) (attempt + 1) r.error
        { rest with attemptsMade := attempt :: rest.attemptsMade }

/-- The environment a `/api/send-otp` invocation runs in: the `Settings`
snapshot the database returns, the store's answer to the rate-limit count
query, the connection flag, the per-attempt resolution of the send/timeout
race, and the webhook transport outcome. -/
structure Env where
  settings : Option SettingsT
  todayCount : Except Unit Nat
  connected : Bool
  sendOutcome : Nat → SendResultT
  webhook : WebhookOutcome

/-- Observable events performed by the handler, in program order.
`saveLog` is a durable write accepted by schema validation; `saveFail` is an
attempted `log.save()` rejected by schema validation (nothing persisted). -/
inductive Event
  | saveLog (r : LogRecord)
  | saveFail (r : LogRecord)
  | sendAttempt (n : Nat)
  | webhookNotify (o : Option WebhookOutcome)
  | emitUpdate
  | respond (code : Nat)
deriving Repr, DecidableEq

/-- Body of the JSON response; absent fields are `none`. -/
structure ResponseBody where
  id : Option String := none
  status : Option String := none
  message : Option String := none
  error : Option String := none
  delivery_time : Option Nat := none
  retry_count : Option Nat := none
deriving Repr, DecidableEq

/-- HTTP status code plus JSON body. -/
structure HttpResponse where
  code : Nat
  body : ResponseBody
deriving Repr, DecidableEq

/-- Result of one handler invocation: the response and the event trace. -/
structure PipelineOut where
  response : HttpResponse
  events : List Event
deriving Repr, DecidableEq

/-- The required-field guard `if (!phone || !message || !api_key)`. -/
def requiredMissing (req : SendOtpRequest) : Bool :=
  req.phone.isEmpty || req.message.isEmpty || req.api_key.isEmpty

/-- A pre-record rejection: a response is sent and nothing else happens. -/
def rejectOut (code : Nat) (body : ResponseBody) : PipelineOut :=
  { response := { code := code, body := body }, events := [Event.respond code] }

/-- The route's outer catch after a `log.save()` threw a validation error
with the record `r` in hand (`log` is non-null): it sets the status to
failed and `error_message` to the thrown message, saves again — a save that
is itself validated and may be rejected a second time — sends the webhook
only if that save succeeded, and responds 500 with
`Internal server error: ` plus the message.  `priorEvents` are the events
already performed before the failing save. -/
def catchSave (settings : Option SettingsT) (webhook : WebhookOutcome) (logId : String)
    (r : LogRecord) (priorEvents : List Event) : PipelineOut :=
  if validateLog { r with status := Status.failed,
                          error_message := some mongooseValidationMessage } then
    { response :=
        { code := 500,
          body := { id := some logId, status := some "failed",
                    error := some ("Internal server error: " ++ mongooseValidationMessage) } },
      events := priorEvents ++ [Event.saveFail r,
        Event.saveLog { r with status := Status.failed,
                               error_message := some mongooseValidationMessage },
        Event.webhookNotify (sendWebhookNotification settings webhook), Event.respond 500] }
  else
    { response :=
        { code := 500,
          body := { id := some logId, status := some "failed",
                    error := some ("Internal server error: " ++ mongooseValidationMessage) } },
      events := priorEvents ++ [Event.saveFail r,
        Event.saveFail { r with status := Status.failed,
                                error_message := some mongooseValidationMessage },
        Event.respond 500] }

/-- `new Log({ id, phone, message, status: 'pending' })` with the schema
defaults for the remaining fields. -/
def mkPendingLog (logId : String) (fp msg : List Char) : LogRecord :=
  { id := logId, phone := fp, message := msg, status := Status.pending,
    error_message := none, retry_count := 0, delivery_time := none }

/-- The record as updated on the not-connected path:
`log.status = 'failed'; log.error_message = 'WhatsApp not connected'`. -/
def notConnectedLog (p : LogRecord) : LogRecord :=
  { p with status := Status.failed,
           error_message := some "WhatsApp not connected" }

/-- The record as updated after the retry loop: terminal status from the
result, `error_message` from the last failure, the loop's `retry_count` and
the deciding attempt's delivery time. -/
def mkFinalLog (p : LogRecord) (loop : LoopOut) : LogRecord :=
  { p with
    status := if loop.result.success then Status.success else Status.failed,
    error_message := if loop.result.success then none else loop.lastError,
    retry_count := loop.retryCount,
    delivery_time := some loop.result.delivery_time }

/-- The `POST /api/send-otp` handler of the monolithic server, step by step:
required fields, Settings lookup plus `validateApiKey` (a thrown
length-mismatch exception falls through to the outer catch and becomes a
500), `checkRateLimit`, `formatPhoneNumber`, message length cap, save of the
pending record, connection check (503 path), the retry loop, the final
record save, the webhook notification (awaited), the socket emit, and the
response.  Every `await log.save()` runs the `LogSchema` validation
(`validateLog`); a rejected save throws, reaching the route's outer catch
(`catchSave`). -/
def sendOtp (env : Env) (req : SendOtpRequest) (logId : String) : PipelineOut :=
  if requiredMissing req then
    rejectOut 400 { error := some "Phone, message, and api_key are required" }
  else
    match env.settings with
    | none =>
      rejectOut 401 { error := some "Invalid API key" }
    | some settings =>
      match validateApiKey req.api_key settings.api_key with
      | Except.error _ =>
        rejectOut 500
          { id := some logId, status := some "failed",
            error := some "Internal server error: Input buffers must have the same byte length" }
      | Except.ok false =>
        rejectOut 401 { error := some "Invalid API key" }
      | Except.ok true =>
        if checkRateLimit env.settings env.todayCount then
          match formatPhoneNumber req.phone with
          | Except.error e =>
            rejectOut 400 { error := some ("Invalid phone number format: " ++ e) }
          | Except.ok formattedPhone =>
            if 1000 < req.message.length then
              rejectOut 400 { error := some "Message too long (max 1000 characters)" }
            else
              let pendingLog : LogRecord := mkPendingLog logId formattedPhone req.message
              if validateLog pendingLog then
                if env.connected = false then
                  let failedLog : LogRecord := notConnectedLog pendingLog
                  if validateLog failedLog then
                    let body : ResponseBody :=
                      { id := some logId, status := some "failed",
                        message := some "WhatsApp service unavailable",
                        error := some "WhatsApp not connected" }
                    { response := { code := 503, body := body },
                      events := [Event.saveLog pendingLog, Event.saveLog failedLog,
                        Event.webhookNotify (sendWebhookNotification env.settings env.webhook),
                        Event.respond 503] }
                  else
                    catchSave env.settings env.webhook logId failedLog
                      [Event.saveLog pendingLog]
                else
                  let loop := runAttempts env.connected formattedPhone env.sendOutcome
                    (MAX_RETRY_ATTEMPTS + 1) 0 0 none
                  let finalLog : LogRecord := mkFinalLog pendingLog loop
                  if validateLog finalLog then
                    let code := if loop.result.success then 200 else 500
                    let body : ResponseBody :=
                      { id := some logId,
                        status := some (if loop.result.success then "success" else "failed"),
                        message := some (if loop.result.success then "OTP sent successfully"
                          else "Failed to send OTP"),
                        error := if loop.result.success then none else loop.lastError,
                        delivery_time := some loop.result.delivery_time,
                        retry_count := some loop.retryCount }
                    { response := { code := code, body := body },
                      events := Event.saveLog pendingLog ::
                        loop.attemptsMade.map Event.sendAttempt ++
                        [Event.saveLog finalLog,
                         Event.webhookNotify (sendWebhookNotification env.settings env.webhook),
                         Event.emitUpdate,
                         Event.respond code] }
                  else
                    catchSave env.settings env.webhook logId finalLog
                      (Event.saveLog pendingLog :: loop.attemptsMade.map Event.sendAttempt)
              else
                catchSave env.settings env.webhook logId pendingLog []
        else
          rejectOut 429 { error := some "Daily message limit exceeded" }

/-- The record snapshots durably written to the store (saves accepted by
schema validation), in order. -/
def savesOf : List Event → List LogRecord
  | [] => []
  | Event.saveLog r :: rest => r :: savesOf rest
  | Event.saveFail _ :: rest => savesOf rest
  | Event.sendAttempt _ :: rest => savesOf rest
  | Event.webhookNotify _ :: rest => savesOf rest
  | Event.emitUpdate :: rest => savesOf rest
  | Event.respond _ :: rest => savesOf rest

/-- The record snapshots whose save was rejected by schema validation, in
order. -/
def saveFailsOf : List Event → List LogRecord
  | [] => []
  | Event.saveLog _ :: rest => saveFailsOf rest
  | Event.saveFail r :: rest => r :: saveFailsOf rest
  | Event.sendAttempt _ :: rest => saveFailsOf rest
  | Event.webhookNotify _ :: rest => saveFailsOf rest
  | Event.emitUpdate :: rest => saveFailsOf rest
  | Event.respond _ :: rest => saveFailsOf rest

/-- The indices of the send attempts issued, in order. -/
def sendAttemptsOf : List Event → List Nat
  | [] => []
  | Event.saveLog _ :: rest => sendAttemptsOf rest
  | Event.saveFail _ :: rest => sendAttemptsOf rest
  | Event.sendAttempt n :: rest => n :: sendAttemptsOf rest
  | Event.webhookNotify _ :: rest => sendAttemptsOf rest
  | Event.emitUpdate :: rest => sendAttemptsOf rest
  | Event.respond _ :: rest => sendAttemptsOf rest

/-- True when a durable save of a pending record occurs strictly before any
send attempt (vacuously true when no send attempt occurs at all); a rejected
save persists nothing and does not count. -/
def pendingSavedBeforeSend : List Event → Bool
  | [] => true
  | Event.sendAttempt _ :: _ => false
  | Event.saveLog r :: rest =>
    if r.status = Status.pending then true else pendingSavedBeforeSend rest
  | Event.saveFail _ :: rest => pendingSavedBeforeSend rest
  | Event.webhookNotify _ :: rest => pendingSavedBeforeSend rest
  | Event.emitUpdate :: rest => pendingSavedBeforeSend rest
  | Event.respond _ :: rest => pendingSavedBeforeSend rest

/-- Whether the trace contains a webhook notification event. -/
def containsWebhook : List Event → Bool
  | [] => false
  | Event.webhookNotify _ :: _ => true
  | _ :: rest => containsWebhook rest

/-- Whether the trace contains a response event. -/
def containsRespond : List Event → Bool
  | [] => false
  | Event.respond _ :: _ => true
  | _ :: rest => containsRespond rest

/-- True when no webhook notification happens after a response has been sent:
every webhook call completes before the caller's response. -/
def noWebhookAfterRespond : List Event → Bool
  | [] => true
  | Event.respond _ :: rest => !containsWebhook rest && noWebhookAfterRespond rest
  | Event.saveLog _ :: rest => noWebhookAfterRespond rest
  | Event.saveFail _ :: rest => noWebhookAfterRespond rest
  | Event.sendAttempt _ :: rest => noWebhookAfterRespond rest
  | Event.webhookNotify _ :: rest => noWebhookAfterRespond rest
  | Event.emitUpdate :: rest => noWebhookAfterRespond rest

/-- True when, of the response event and the webhook call, the response comes
first — the ordering an asynchronous, fire-and-forget notifier would show. -/
def respondBeforeWebhook : List Event → Bool
  | [] => false
  | Event.respond _ :: _ => true
  | Event.webhookNotify _ :: _ => false
  | Event.saveLog _ :: rest => respondBeforeWebhook rest
  | Event.saveFail _ :: rest => respondBeforeWebhook rest
  | Event.sendAttempt _ :: rest => respondBeforeWebhook rest
  | Event.emitUpdate :: rest => respondBeforeWebhook rest

/-!
### Session reconnection policy (`src/services/whatsapp.js`)

Modelled: `scheduleReconnect` and the body of the timer it arms, driven by
transient `link-closed` events with no successful connect in between (so
`isConnected` and `isInitializing` are false whenever the timer fires, and
every reconnect attempt itself ends in another transient close).
-/

/-- Constant from the session service: `const MAX_RECONNECT_ATTEMPTS = 5`. -/
def MAX_RECONNECT_ATTEMPTS : Nat := 5

/-- `scheduleReconnect`: when the counter has reached the cap it resets the
counter to 0 and arms no timer; otherwise it leaves the counter unchanged
and arms the delayed timer.  Returns (new counter, timer armed?). -/
def scheduleReconnect (reconnectAttempts : Nat) : Nat × Bool :=
  if MAX_RECONNECT_ATTEMPTS ≤ reconnectAttempts then (0, false)
  else (reconnectAttempts, true)

/-- The timer body: if neither connected nor mid-initialization, increments
the counter and starts a new connection attempt.  Returns
(new counter, reconnect started?). -/
def reconnectTimerBody (reconnectAttempts : Nat) (isInitializing isConnected : Bool) :
    Nat × Bool :=
  if isInitializing = false ∧ isConnected = false then (reconnectAttempts + 1, true)
  else (reconnectAttempts, false)

/-- One transient `link-closed` event under the scenario of the claim: the
close handler calls `scheduleReconnect`; if a timer was armed it later fires
with the session still down.  Returns (new counter, reconnect started?). -/
def transientClose (reconnectAttempts : Nat) : Nat × Bool :=
  let sched := scheduleReconnect reconnectAttempts
  if sched.2 then reconnectTimerBody sched.1 false false
  else (sched.1, false)

/-- The counter after `n` consecutive transient closes starting from 0. -/
def closesAfter : Nat → Nat
  | 0 => 0
  | n + 1 => (transientClose (closesAfter n)).1

/-!
### Concrete fixtures used by witnesses and counterexamples
-/

/-- A stored API key of the generated shape (35 characters). -/
def keyA : List Char := "sk_0123456789abcdef0123456789abcdef".toList

/-- A wrong key of the same length as `keyA` (last character differs). -/
def keyWrongSameLen : List Char := "sk_0123456789abcdef0123456789abcdeg".toList

/-- A wrong key of a different length than `keyA`. -/
def keyWrongShort : List Char := "sk_wrong".toList

/-- A Settings row with webhooks enabled and a high daily cap. -/
def settingsA : SettingsT :=
  { webhook_url := "https://example.com/hook", api_key := keyA,
    webhook_enabled := true, max_daily_messages := 1000 }

/-- A Settings row whose daily cap is 1. -/
def settingsLow : SettingsT := { settingsA with max_daily_messages := 1 }

/-- Every send attempt resolves successfully in 120 ms. -/
def okSend : Nat → SendResultT :=
  fun _ => { success := true, delivery_time := 120, error := none }

/-- Every send attempt loses the race against the 30 s timeout. -/
def timeoutSend : Nat → SendResultT :=
  fun _ => { success := false, delivery_time := 30000, error := some "Message sending timeout" }

/-- Connected session, empty store, healthy webhook endpoint. -/
def envOk : Env :=
  { settings := some settingsA, todayCount := Except.ok 0, connected := true,
    sendOutcome := okSend, webhook := WebhookOutcome.ok }

/-- A well-formed request carrying the valid key. -/
def reqOk : SendOtpRequest :=
  { phone := "081234567890".toList, message := "Your code is 552210".toList,
    api_key := keyA }

/-- The connected environment in which every send attempt times out. -/
def envTimeout : Env := { envOk with sendOutcome := timeoutSend }

/-!
### Claim C1 — authentication rejections
-/

/-- Claim C1 counterexample: a wrong api key whose length differs from the
stored key makes `crypto.timingSafeEqual` throw, so the response is 500, not
the 401 the claim promises for all wrong keys regardless of length; no
record is created either way. -/
theorem claim1_counterexample :
    (sendOtp envOk { reqOk with api_key := keyWrongShort } "TX1").response.code = 500 ∧
    ¬ (sendOtp envOk { reqOk with api_key := keyWrongShort } "TX1").response.code = 401 ∧
    savesOf (sendOtp envOk { reqOk with api_key := keyWrongShort } "TX1").events = [] := by
  refine ⟨by decide, by decide, by decide⟩

/-- Claim C1, amended: for every submit request whose api key does not match
the stored key, no DispatchRecord is created; the response is 401 exactly
when the key survives the required-field guard and either the stored key is
empty or the two keys have equal length — a nonempty wrong key of a
different length makes `timingSafeEqual` throw and yields 500 instead. -/
theorem claim1_amended (env : Env) (req : SendOtpRequest) (logId : String) (s : SettingsT)
    (hs : env.settings = some s) (hne : req.api_key ≠ s.api_key) :
    savesOf (sendOtp env req logId).events = [] ∧
    (sendOtp env req logId).response.code =
      (if requiredMissing req then 400
       else if s.api_key.isEmpty = true ∨ req.api_key.length = s.api_key.length then 401
       else 500) := by
  unfold sendOtp validateApiKey timingSafeEqual
  rw [hs]
  by_cases hreq : requiredMissing req
  · simp [hreq, rejectOut, savesOf]
  · have hak : req.api_key.isEmpty = false := by
      simp [requiredMissing] at hreq
      simpa using hreq.2
    by_cases hb : s.api_key.isEmpty
    · simp [hreq, hak, hb, rejectOut, savesOf]
    · have hd : decide (req.api_key = s.api_key) = false := decide_eq_false hne
      by_cases hl : req.api_key.length = s.api_key.length
      · simp [hreq, hak, hb, hl, hd, rejectOut, savesOf]
      · simp [hreq, hak, hb, hl, rejectOut, savesOf]

/-- Claim C1 witness: the amended statement applied to the concrete
equal-length wrong key, which receives a 401 and creates no record. -/
theorem claim1_witness :
    savesOf (sendOtp envOk { reqOk with api_key := keyWrongSameLen } "TX1").events = [] ∧
    (sendOtp envOk { reqOk with api_key := keyWrongSameLen } "TX1").response.code =
      (if requiredMissing { reqOk with api_key := keyWrongSameLen } then 400
       else if settingsA.api_key.isEmpty = true ∨
         ({ reqOk with api_key := keyWrongSameLen } : SendOtpRequest).api_key.length =
           settingsA.api_key.length then 401
       else 500) :=
  claim1_amended envOk { reqOk with api_key := keyWrongSameLen } "TX1" settingsA rfl
    (by decide)

/-!
### Trace helper lemmas
-/

/-- Send-attempt events contribute no record saves. -/
theorem savesOf_map_sendAttempt (l : List Nat) (rest : List Event) :
    savesOf (l.map Event.sendAttempt ++ rest) = savesOf rest := by
  induction l with
  | nil => rfl
  | cons a t ih => simpa [savesOf] using ih

/-- The send attempts of a trace prefixed by send-attempt events. -/
theorem sendAttemptsOf_map_sendAttempt (l : List Nat) (rest : List Event) :
    sendAttemptsOf (l.map Event.sendAttempt ++ rest) = l ++ sendAttemptsOf rest := by
  induction l with
  | nil => rfl
  | cons a t ih => simpa [sendAttemptsOf] using ih

/-- Send-attempt events preserve the no-webhook-after-response property. -/
theorem noWebhookAfterRespond_map_sendAttempt (l : List Nat) (rest : List Event) :
    noWebhookAfterRespond (l.map Event.sendAttempt ++ rest) = noWebhookAfterRespond rest := by
  induction l with
  | nil => rfl
  | cons a t ih => simpa [noWebhookAfterRespond] using ih

/-- A run of send-attempt events contains no response event. -/
theorem containsRespond_map_sendAttempt (l : List Nat) :
    containsRespond (l.map Event.sendAttempt) = false := by
  induction l with
  | nil => rfl
  | cons a t ih => simpa [containsRespond] using ih

/-- Appending a suffix with the no-webhook-after-response property to a
response-free prefix preserves the property. -/
theorem noWebhookAfterRespond_append (pe suffix : List Event)
    (h1 : containsRespond pe = false)
    (h2 : noWebhookAfterRespond suffix = true) :
    noWebhookAfterRespond (pe ++ suffix) = true := by
  induction pe with
  | nil => simpa using h2
  | cons e t ih =>
    cases e with
    | respond c => simp [containsRespond] at h1
    | saveLog r =>
      simp only [containsRespond] at h1
      simpa [noWebhookAfterRespond] using ih h1
    | saveFail r =>
      simp only [containsRespond] at h1
      simpa [noWebhookAfterRespond] using ih h1
    | sendAttempt n =>
      simp only [containsRespond] at h1
      simpa [noWebhookAfterRespond] using ih h1
    | webhookNotify o =>
      simp only [containsRespond] at h1
      simpa [noWebhookAfterRespond] using ih h1
    | emitUpdate =>
      simp only [containsRespond] at h1
      simpa [noWebhookAfterRespond] using ih h1

/-- The outer-catch response is fixed: 500 with the internal-error message,
independent of the webhook outcome and of the prior events. -/
theorem catchSave_response (st : Option SettingsT) (w : WebhookOutcome) (logId : String)
    (r : LogRecord) (pe : List Event) :
    (catchSave st w logId r pe).response =
      { code := 500,
        body := { id := some logId, status := some "failed",
                  error := some ("Internal server error: " ++ mongooseValidationMessage) } } := by
  unfold catchSave
  split <;> rfl

/-- In the outer-catch path the response event comes last, so no webhook
call follows it. -/
theorem noWebhookAfterRespond_catchSave (st : Option SettingsT) (w : WebhookOutcome)
    (logId : String) (r : LogRecord) (pe : List Event)
    (h : containsRespond pe = false) :
    noWebhookAfterRespond (catchSave st w logId r pe).events = true := by
  unfold catchSave
  split
  · exact noWebhookAfterRespond_append _ _ h
      (by simp [noWebhookAfterRespond, containsWebhook])
  · exact noWebhookAfterRespond_append _ _ h
      (by simp [noWebhookAfterRespond, containsWebhook])

/-- The freshly constructed record is pending. -/
theorem mkPendingLog_status (logId : String) (fp msg : List Char) :
    (mkPendingLog logId fp msg).status = Status.pending := rfl

/-- The outer-catch path issues no send attempt of its own, so when it is
entered with no prior events the pending-save-before-send property holds
vacuously. -/
theorem pendingSavedBeforeSend_catchSave_nil (st : Option SettingsT) (w : WebhookOutcome)
    (logId : String) (r : LogRecord) :
    pendingSavedBeforeSend (catchSave st w logId r []).events = true := by
  unfold catchSave
  split <;> simp [pendingSavedBeforeSend]

/-- When the outer-catch path is entered after a durable pending save, the
pending-save-before-send property holds. -/
theorem pendingSavedBeforeSend_catchSave_cons (st : Option SettingsT) (w : WebhookOutcome)
    (logId : String) (r p : LogRecord) (rest : List Event)
    (h : p.status = Status.pending) :
    pendingSavedBeforeSend (catchSave st w logId r (Event.saveLog p :: rest)).events
      = true := by
  unfold catchSave
  split <;> simp [pendingSavedBeforeSend, h]

/-- A phone accepted by the server's formatter is a pure digit string of 10
to 15 characters — so every record built from it passes `LogSchema`'s phone
validator. -/
theorem formatPhoneNumber_digits (phone fp : List Char)
    (h : formatPhoneNumber phone = Except.ok fp) :
    cleanDigits fp = fp ∧ 10 ≤ fp.length ∧ fp.length ≤ 15 := by
  have hall : ∀ a ∈ cleanDigits phone, a.isDigit := by
    intro a ha
    exact (List.mem_filter.mp ha).2
  have hself : cleanDigits (cleanDigits phone) = cleanDigits phone :=
    List.filter_eq_self.mpr hall
  have hdrop : cleanDigits ((cleanDigits phone).drop 1) = (cleanDigits phone).drop 1 :=
    List.filter_eq_self.mpr (fun a ha => hall a (List.drop_subset 1 _ ha))
  unfold formatPhoneNumber at h
  by_cases h1 : (cleanDigits phone).length < 10 ∨ 15 < (cleanDigits phone).length
  · rw [if_pos h1] at h
    exact absurd h (by simp)
  · rw [if_neg h1] at h
    push_neg at h1
    by_cases h2 : startsWith62 (cleanDigits phone) = false ∧ (cleanDigits phone).length ≤ 12
    · rw [if_pos h2] at h
      by_cases h0 : startsWith0 (cleanDigits phone) = true
      · rw [if_pos h0] at h
        obtain rfl : fp = '6' :: '2' :: (cleanDigits phone).drop 1 := (Except.ok.inj h).symm
        refine ⟨?_, ?_, ?_⟩
        · show cleanDigits ('6' :: '2' :: (cleanDigits phone).drop 1) = _
          calc cleanDigits ('6' :: '2' :: (cleanDigits phone).drop 1)
              = '6' :: '2' :: cleanDigits ((cleanDigits phone).drop 1) := rfl
            _ = '6' :: '2' :: (cleanDigits phone).drop 1 := by rw [hdrop]
        · simp only [List.length_cons, List.length_drop]
          omega
        · simp only [List.length_cons, List.length_drop]
          omega
      · rw [if_neg h0] at h
        obtain rfl : fp = '6' :: '2' :: cleanDigits phone := (Except.ok.inj h).symm
        refine ⟨?_, ?_, ?_⟩
        · show cleanDigits ('6' :: '2' :: cleanDigits phone) = _
          calc cleanDigits ('6' :: '2' :: cleanDigits phone)
              = '6' :: '2' :: cleanDigits (cleanDigits phone) := rfl
            _ = '6' :: '2' :: cleanDigits phone := by rw [hself]
        · simp only [List.length_cons]
          omega
        · simp only [List.length_cons]
          omega
    · rw [if_neg h2] at h
      obtain rfl : fp = cleanDigits phone := (Except.ok.inj h).symm
      exact ⟨hself, h1.1, h1.2⟩

/-!
### Claim C2 — record lifecycle of an admitted request
-/

/-- Claim C2 evaluation at the failing input (the same all-timeouts scenario
as C4): the pending snapshot is the only durable write of the admitted
request — the terminal save carries `retry_count = 4`, which `LogSchema`'s
declared `max: MAX_RETRY_ATTEMPTS` rejects, as it does the outer catch's
repeated save — so the stored record never receives a terminal status and
the claimed pending-to-exactly-one-of-success-or-failed transition never
completes; the caller is answered 500. -/
theorem claim2_bug :
    (savesOf (sendOtp envTimeout reqOk "TX2").events).map (fun r => r.status) =
      [Status.pending] ∧
    (saveFailsOf (sendOtp envTimeout reqOk "TX2").events).map
        (fun r => (r.status, r.retry_count)) =
      [(Status.failed, MAX_RETRY_ATTEMPTS + 1), (Status.failed, MAX_RETRY_ATTEMPTS + 1)] ∧
    (sendOtp envTimeout reqOk "TX2").response.code = 500 := by
  refine ⟨by decide, by decide, by decide⟩

/-!
### Claim C3 — pending record persisted before any delivery attempt
-/

/-- Claim C3: in every invocation of the pipeline (in particular every
admitted one), a save of the record in pending state occurs strictly before
any send attempt — no branch of the handler issues a send before the pending
save has completed. -/
theorem claim3_theorem (env : Env) (req : SendOtpRequest) (logId : String) :
    pendingSavedBeforeSend (sendOtp env req logId).events = true := by
  unfold sendOtp
  by_cases hreq : requiredMissing req
  · simp [hreq, rejectOut, pendingSavedBeforeSend]
  · cases hs : env.settings with
    | none => simp [hreq, hs, rejectOut, pendingSavedBeforeSend]
    | some s =>
      rcases hv : validateApiKey req.api_key s.api_key with e | b
      · simp [hreq, hs, hv, rejectOut, pendingSavedBeforeSend]
      · cases b with
        | false => simp [hreq, hs, hv, rejectOut, pendingSavedBeforeSend]
        | true =>
          by_cases hrate : checkRateLimit (some s) env.todayCount = true
          · rcases hfp : formatPhoneNumber req.phone with e | fp
            · simp [hreq, hs, hv, hrate, hfp, rejectOut, pendingSavedBeforeSend]
            · by_cases hmsg : 1000 < req.message.length
              · simp [hreq, hs, hv, hrate, hfp, hmsg, rejectOut, pendingSavedBeforeSend]
              · by_cases hvp : validateLog (mkPendingLog logId fp req.message) = true
                · by_cases hc : env.connected = false
                  · by_cases hvf :
                        validateLog (notConnectedLog (mkPendingLog logId fp req.message)) = true
                    · simp [hreq, hs, hv, hrate, hfp, hmsg, hvp, hc, hvf,
                        pendingSavedBeforeSend, mkPendingLog_status]
                    · simp only [hreq, hs, hv, hrate, hfp, hmsg, hvp, hc, hvf,
                        Bool.false_eq_true, if_false, if_true, ite_true, ite_false,
                        eq_self_iff_true, not_false_eq_true]
                      exact pendingSavedBeforeSend_catchSave_cons _ _ _ _ _ _
                        (mkPendingLog_status _ _ _)
                  · have hct : env.connected = true := by simpa using hc
                    by_cases hvfin :
                        validateLog (mkFinalLog (mkPendingLog logId fp req.message)
                          (runAttempts true fp env.sendOutcome
                            (MAX_RETRY_ATTEMPTS + 1) 0 0 none)) = true
                    · simp [hreq, hs, hv, hrate, hfp, hmsg, hvp, hct, hvfin,
                        pendingSavedBeforeSend, mkPendingLog_status]
                    · simp only [hreq, hs, hv, hrate, hfp, hmsg, hvp, hct, hvfin,
                        Bool.false_eq_true, Bool.true_eq_false, if_false, if_true,
                        ite_true, ite_false, eq_self_iff_true, not_false_eq_true]
                      exact pendingSavedBeforeSend_catchSave_cons _ _ _ _ _ _
                        (mkPendingLog_status _ _ _)
                · simp only [hreq, hs, hv, hrate, hfp, hmsg, hvp,
                    Bool.false_eq_true, if_false, if_true, ite_true, ite_false,
                    eq_self_iff_true, not_false_eq_true]
                  exact pendingSavedBeforeSend_catchSave_nil _ _ _ _
          · simp [hreq, hs, hv, hrate, rejectOut, pendingSavedBeforeSend]

/-- Claim C3 witness: the ordering statement at the concrete connected
environment. -/
theorem claim3_witness :
    pendingSavedBeforeSend (sendOtp envOk reqOk "TX1").events = true :=
  claim3_theorem envOk reqOk "TX1"

/-!
### Claim C4 — retry ceiling when every attempt times out
-/

/-- Claim C4 evaluation at the failing input: with the session connected and
every send attempt timing out, the loop runs `attempt = 0 .. MAX_RETRY_ATTEMPTS`
inclusive — four send attempts — and on each failure writes
`retry_count = attempt + 1`, so the record leaves the loop failed with
`retry_count = MAX_RETRY_ATTEMPTS + 1 = 4`, not the ceiling 3 the claim
states; that value violates the `max: MAX_RETRY_ATTEMPTS` bound `LogSchema`
itself declares, so the terminal save and the outer catch's repeated save
are both rejected and only the pending snapshot is ever stored. -/
theorem claim4_bug :
    (savesOf (sendOtp envTimeout reqOk "TX4").events).map
        (fun r => (r.status, r.retry_count)) = [(Status.pending, 0)] ∧
    (saveFailsOf (sendOtp envTimeout reqOk "TX4").events).map
        (fun r => r.retry_count) =
      [MAX_RETRY_ATTEMPTS + 1, MAX_RETRY_ATTEMPTS + 1] ∧
    (saveFailsOf (sendOtp envTimeout reqOk "TX4").events).map
        retryCountWithinSchema = [false, false] ∧
    sendAttemptsOf (sendOtp envTimeout reqOk "TX4").events = [0, 1, 2, 3] := by
  refine ⟨by decide, by decide, by decide, by decide⟩

/-!
### Claim C5 — ordering of validation and rate limiting
-/

/-- Claim C5 counterexample: a request whose phone fails normalization is
answered 429, not the 400 the claim promises, when today's count has reached
the cap — the handler consults the rate limiter before validating the
phone. -/
theorem claim5_counterexample :
    (sendOtp { envOk with settings := some settingsLow, todayCount := Except.ok 1 }
        { reqOk with phone := "123".toList } "TX5").response.code = 429 ∧
    ¬ (sendOtp { envOk with settings := some settingsLow, todayCount := Except.ok 1 }
        { reqOk with phone := "123".toList } "TX5").response.code = 400 := by
  refine ⟨by decide, by decide⟩

/-- Claim C5, amended: the rejection checks run in the order authentication,
rate limit, phone validation, message length; a request with an invalid
phone or an over-long message is rejected 400 with no record only when the
rate limit check passes, and is rejected 429 with no record when today's
count has reached the cap — the rate limit, not validation, is decided
first. -/
theorem claim5_amended (env : Env) (req : SendOtpRequest) (logId : String) (s : SettingsT)
    (hs : env.settings = some s)
    (hreq : requiredMissing req = false)
    (hkey : validateApiKey req.api_key s.api_key = Except.ok true)
    (hbad : (∃ e, formatPhoneNumber req.phone = Except.error e) ∨ 1000 < req.message.length) :
    (checkRateLimit (some s) env.todayCount = true →
      (sendOtp env req logId).response.code = 400 ∧
      savesOf (sendOtp env req logId).events = []) ∧
    (checkRateLimit (some s) env.todayCount = false →
      (sendOtp env req logId).response.code = 429 ∧
      savesOf (sendOtp env req logId).events = []) := by
  unfold sendOtp
  rw [hs]
  simp only [hreq, Bool.false_eq_true, if_false, hkey]
  constructor
  · intro hrate
    simp only [hrate, if_true]
    rcases hbad with ⟨e, hfp⟩ | hlen
    · simp [hfp, rejectOut, savesOf]
    · rcases hfp : formatPhoneNumber req.phone with e | fp
      · simp [hfp, rejectOut, savesOf]
      · simp [hfp, hlen, rejectOut, savesOf]
  · intro hrate
    simp [hrate, rejectOut, savesOf]

/-- Claim C5 witness: the amended statement at the concrete
invalid-phone request, in the environment whose daily count is below the
cap (400) — the hypothesis instantiated and discharged concretely. -/
theorem claim5_witness :
    (sendOtp { envOk with settings := some settingsLow }
        { reqOk with phone := "123".toList } "TX1").response.code = 400 ∧
    savesOf (sendOtp { envOk with settings := some settingsLow }
        { reqOk with phone := "123".toList } "TX1").events = [] :=
  (claim5_amended { envOk with settings := some settingsLow }
      { reqOk with phone := "123".toList } "TX1" settingsLow rfl (by decide) rfl
      (Or.inl ⟨_, rfl⟩)).1 rfl

/-!
### Claim C6 — rate limiter semantics and the (N+1)th request
-/

/-- Claim C6: with a Settings row present and the count query succeeding,
`checkRateLimit` denies exactly when today's success-plus-pending count has
reached `max_daily_messages`; a store error yields allow (fail-open); and
with the cap set to N and N requests already counted today, the next request
is answered 429 and creates no record. -/
theorem claim6_theorem :
    (∀ (s : SettingsT) (c : Nat),
      checkRateLimit (some s) (Except.ok c) = false ↔ s.max_daily_messages ≤ c) ∧
    (∀ (st : Option SettingsT), checkRateLimit st (Except.error ()) = true) ∧
    (∀ (env : Env) (req : SendOtpRequest) (logId : String) (s : SettingsT),
      env.settings = some s →
      env.todayCount = Except.ok s.max_daily_messages →
      requiredMissing req = false →
      validateApiKey req.api_key s.api_key = Except.ok true →
      (sendOtp env req logId).response.code = 429 ∧
      savesOf (sendOtp env req logId).events = []) := by
  refine ⟨?_, ?_, ?_⟩
  · intro s c
    simp [checkRateLimit]
  · intro st
    cases st <;> simp [checkRateLimit]
  · intro env req logId s hs hc hreq hkey
    unfold sendOtp
    rw [hs]
    have hrate : checkRateLimit (some s) env.todayCount = false := by
      simp [checkRateLimit, hc]
    simp [hreq, hkey, hrate, rejectOut, savesOf]

/-- Claim C6 witness: the deny-at-cap statement applied to the concrete
environment whose cap is 1 and whose count for today is already 1. -/
theorem claim6_witness :
    (sendOtp { envOk with settings := some settingsLow, todayCount := Except.ok 1 }
        reqOk "TX1").response.code = 429 ∧
    savesOf (sendOtp { envOk with settings := some settingsLow, todayCount := Except.ok 1 }
        reqOk "TX1").events = [] :=
  claim6_theorem.2.2 { envOk with settings := some settingsLow, todayCount := Except.ok 1 }
    reqOk "TX1" settingsLow rfl rfl (by decide) rfl

/-!
### Claim C7 — admitted request while the session is down
-/

/-- Claim C7: for every admitted request made while the session is not
connected, no send attempt is issued, the pending record is finalized as
failed with the not-connected reason, and the caller receives 503. -/
theorem claim7_theorem (env : Env) (req : SendOtpRequest) (logId : String)
    (s : SettingsT) (fp : List Char)
    (hs : env.settings = some s)
    (hreq : requiredMissing req = false)
    (hkey : validateApiKey req.api_key s.api_key = Except.ok true)
    (hrate : checkRateLimit (some s) env.todayCount = true)
    (hfp : formatPhoneNumber req.phone = Except.ok fp)
    (hmsg : ¬ 1000 < req.message.length)
    (hc : env.connected = false) :
    sendAttemptsOf (sendOtp env req logId).events = [] ∧
    savesOf (sendOtp env req logId).events =
      [{ id := logId, phone := fp, message := req.message, status := Status.pending,
         error_message := none, retry_count := 0, delivery_time := none },
       { id := logId, phone := fp, message := req.message, status := Status.failed,
         error_message := some "WhatsApp not connected", retry_count := 0,
         delivery_time := none }] ∧
    (sendOtp env req logId).response.code = 503 := by
  have hd := formatPhoneNumber_digits req.phone fp hfp
  have hmne : req.message.isEmpty = false := by
    simp [requiredMissing] at hreq
    simpa using hreq.1.2
  have hmlen : req.message.length ≤ 1000 := Nat.le_of_not_lt hmsg
  have hvp : validateLog (mkPendingLog logId fp req.message) = true := by
    simp [validateLog, mkPendingLog, hd.1, hd.2.1, hd.2.2, hmne, hmlen,
      MAX_RETRY_ATTEMPTS]
  have hvf : validateLog (notConnectedLog (mkPendingLog logId fp req.message)) = true := by
    simp [validateLog, mkPendingLog, notConnectedLog, hd.1, hd.2.1, hd.2.2, hmne, hmlen,
      MAX_RETRY_ATTEMPTS]
    decide
  unfold sendOtp
  rw [hs]
  simp only [hreq, Bool.false_eq_true, if_false, hkey, hrate, if_true, hfp, hmsg, hvp,
    hvf, hc]
  refine ⟨?_, ?_, ?_⟩ <;>
    simp [sendAttemptsOf, savesOf, mkPendingLog, notConnectedLog]

/-- Claim C7 witness: the statement at the concrete disconnected
environment. -/
theorem claim7_witness :
    sendAttemptsOf (sendOtp { envOk with connected := false } reqOk "TX7").events = [] ∧
    savesOf (sendOtp { envOk with connected := false } reqOk "TX7").events =
      [{ id := "TX7", phone := "6281234567890".toList, message := reqOk.message,
         status := Status.pending, error_message := none, retry_count := 0,
         delivery_time := none },
       { id := "TX7", phone := "6281234567890".toList, message := reqOk.message,
         status := Status.failed, error_message := some "WhatsApp not connected",
         retry_count := 0, delivery_time := none }] ∧
    (sendOtp { envOk with connected := false } reqOk "TX7").response.code = 503 :=
  claim7_theorem { envOk with connected := false } reqOk "TX7" settingsA
    ("6281234567890".toList) rfl (by decide) rfl rfl rfl (by decide) rfl

/-!
### Claim C8 — webhook decoupling from the caller's response
-/

/-- Claim C8 counterexample: the handler awaits the webhook notification
before producing the caller's response, so in the concrete trace the webhook
call precedes the response event — there is no response already prepared
when the webhook is triggered, refuting the asynchronous-trigger part of the
claim. -/
theorem claim8_counterexample :
    respondBeforeWebhook (sendOtp envOk reqOk "TX1").events = false ∧
    containsWebhook (sendOtp envOk reqOk "TX1").events = true := by
  refine ⟨by decide, by decide⟩

/-- Claim C8, amended: the webhook notification is invoked and awaited after
the record is finalized and before the response is sent (never after it),
and its outcome — skipped, non-2xx, or transport error — never alters the
response body or status returned to the dispatch caller. -/
theorem claim8_amended :
    (∀ (st : Option SettingsT) (tc : Except Unit Nat) (c : Bool) (f : Nat → SendResultT)
       (o₁ o₂ : WebhookOutcome) (req : SendOtpRequest) (logId : String),
      (sendOtp ⟨st, tc, c, f, o₁⟩ req logId).response =
        (sendOtp ⟨st, tc, c, f, o₂⟩ req logId).response) ∧
    (∀ (env : Env) (req : SendOtpRequest) (logId : String),
      noWebhookAfterRespond (sendOtp env req logId).events = true) := by
  constructor
  · intro st tc c f o₁ o₂ req logId
    unfold sendOtp
    by_cases hreq : requiredMissing req
    · simp [hreq]
    · cases st with
      | none => simp [hreq]
      | some s =>
        rcases hv : validateApiKey req.api_key s.api_key with e | b
        · simp [hreq, hv]
        · cases b with
          | false => simp [hreq, hv]
          | true =>
            by_cases hrate : checkRateLimit (some s) tc = true
            · rcases hfp : formatPhoneNumber req.phone with e | fp
              · simp [hreq, hv, hrate, hfp]
              · by_cases hmsg : 1000 < req.message.length
                · simp [hreq, hv, hrate, hfp, hmsg]
                · by_cases hvp : validateLog (mkPendingLog logId fp req.message) = true
                  · by_cases hcon : c = false
                    · by_cases hvf :
                          validateLog (notConnectedLog (mkPendingLog logId fp req.message))
                            = true
                      · simp [hreq, hv, hrate, hfp, hmsg, hvp, hcon, hvf]
                      · simp only [hreq, hv, hrate, hfp, hmsg, hvp, hcon, hvf,
                          Bool.false_eq_true, if_false, if_true]
                        rw [catchSave_response, catchSave_response]
                    · have hct : c = true := by simpa using hcon
                      by_cases hvfin :
                          validateLog (mkFinalLog (mkPendingLog logId fp req.message)
                            (runAttempts true fp f (MAX_RETRY_ATTEMPTS + 1) 0 0 none)) = true
                      · simp [hreq, hv, hrate, hfp, hmsg, hvp, hct, hvfin]
                      · simp only [hreq, hv, hrate, hfp, hmsg, hvp, hct, hvfin,
                          Bool.false_eq_true, Bool.true_eq_false, if_false, if_true,
                          ite_true, ite_false, eq_self_iff_true, not_false_eq_true]
                        rw [catchSave_response, catchSave_response]
                  · simp only [hreq, hv, hrate, hfp, hmsg, hvp,
                      Bool.false_eq_true, if_false, if_true]
                    rw [catchSave_response, catchSave_response]
            · simp [hreq, hv, hrate]
  · intro env req logId
    unfold sendOtp
    by_cases hreq : requiredMissing req
    · simp [hreq, rejectOut, noWebhookAfterRespond, containsWebhook]
    · cases hs : env.settings with
      | none => simp [hreq, hs, rejectOut, noWebhookAfterRespond, containsWebhook]
      | some s =>
        rcases hv : validateApiKey req.api_key s.api_key with e | b
        · simp [hreq, hs, hv, rejectOut, noWebhookAfterRespond, containsWebhook]
        · cases b with
          | false => simp [hreq, hs, hv, rejectOut, noWebhookAfterRespond, containsWebhook]
          | true =>
            by_cases hrate : checkRateLimit (some s) env.todayCount = true
            · rcases hfp : formatPhoneNumber req.phone with e | fp
              · simp [hreq, hs, hv, hrate, hfp, rejectOut, noWebhookAfterRespond,
                  containsWebhook]
              · by_cases hmsg : 1000 < req.message.length
                · simp [hreq, hs, hv, hrate, hfp, hmsg, rejectOut, noWebhookAfterRespond,
                    containsWebhook]
                · by_cases hvp : validateLog (mkPendingLog logId fp req.message) = true
                  · by_cases hc : env.connected = false
                    · by_cases hvf :
                          validateLog (notConnectedLog (mkPendingLog logId fp req.message))
                            = true
                      · simp [hreq, hs, hv, hrate, hfp, hmsg, hvp, hc, hvf,
                          noWebhookAfterRespond, containsWebhook]
                      · simp only [hreq, hs, hv, hrate, hfp, hmsg, hvp, hc, hvf,
                          Bool.false_eq_true, if_false, if_true]
                        exact noWebhookAfterRespond_catchSave _ _ _ _ _ (by rfl)
                    · have hct : env.connected = true := by simpa using hc
                      by_cases hvfin :
                          validateLog (mkFinalLog (mkPendingLog logId fp req.message)
                            (runAttempts true fp env.sendOutcome
                              (MAX_RETRY_ATTEMPTS + 1) 0 0 none)) = true
                      · simp [hreq, hs, hv, hrate, hfp, hmsg, hvp, hct, hvfin,
                          noWebhookAfterRespond, containsWebhook,
                          noWebhookAfterRespond_map_sendAttempt]
                      · simp only [hreq, hs, hv, hrate, hfp, hmsg, hvp, hct, hvfin,
                          Bool.false_eq_true, Bool.true_eq_false, if_false, if_true,
                          ite_true, ite_false, eq_self_iff_true, not_false_eq_true]
                        exact noWebhookAfterRespond_catchSave _ _ _ _ _
                          (by simp [containsRespond, containsRespond_map_sendAttempt])
                  · simp only [hreq, hs, hv, hrate, hfp, hmsg, hvp,
                      Bool.false_eq_true, if_false, if_true]
                    exact noWebhookAfterRespond_catchSave _ _ _ _ _ (by rfl)
            · simp [hreq, hs, hv, hrate, rejectOut, noWebhookAfterRespond, containsWebhook]

/-- Claim C8 witness: the independence statement applied at the concrete
environment, comparing a healthy endpoint with a failing one. -/
theorem claim8_witness :
    (sendOtp { envOk with webhook := WebhookOutcome.ok } reqOk "TX1").response =
      (sendOtp { envOk with webhook := WebhookOutcome.non2xx 500 } reqOk "TX1").response :=
  claim8_amended.1 (some settingsA) (Except.ok 0) true okSend
    WebhookOutcome.ok (WebhookOutcome.non2xx 500) reqOk "TX1"

/-!
### Claim C9 — reconnection cap behaviour
-/

/-- Claim C9 counterexample: the counter does reach the cap, but the close
event that finds it at the cap resets it to 0 instead of latching a Failed
state, and the very next transient close starts an automatic reconnect with
no operator-triggered forceReconnect in between — refuting that no further
automatic reconnect is ever scheduled until forceReconnect resets the
counter. -/
theorem claim9_counterexample :
    closesAfter MAX_RECONNECT_ATTEMPTS = MAX_RECONNECT_ATTEMPTS ∧
    closesAfter (MAX_RECONNECT_ATTEMPTS + 1) = 0 ∧
    (transientClose (closesAfter (MAX_RECONNECT_ATTEMPTS + 1))).2 = true := by
  refine ⟨by decide, by decide, by decide⟩

/-- Claim C9, amended: under repeated transient link-closed events with no
successful connect, the reconnect attempt counter increases monotonically up
to the cap (the n-th close leaves it at n for n ≤ cap, and every close below
the cap starts a reconnect); the close that finds the counter at the cap
starts no reconnect and resets the counter to 0 — there is no Failed
terminal state, and automatic reconnection resumes on the next close without
any operator action. -/
theorem claim9_amended :
    (∀ n, n ≤ MAX_RECONNECT_ATTEMPTS → closesAfter n = n) ∧
    (∀ n, n < MAX_RECONNECT_ATTEMPTS → (transientClose n).2 = true) ∧
    transientClose MAX_RECONNECT_ATTEMPTS = (0, false) := by
  refine ⟨?_, ?_, by decide⟩
  · intro n hn
    have hn5 : n ≤ 5 := hn
    interval_cases n <;> decide
  · intro n hn
    have hn5 : n < 5 := hn
    interval_cases n <;> decide

/-- Claim C9 witness: the amended statement instantiated at the cap and at a
fresh counter. -/
theorem claim9_witness :
    closesAfter 5 = 5 ∧ (transientClose 0).2 = true :=
  ⟨claim9_amended.1 5 (by decide), claim9_amended.2.1 0 (by decide)⟩

/-!
### Claim C10 — the two phone-normalization functions
-/

/-- Claim C10 counterexample: on the 13-digit input 0123456789012 — which
has a leading 0 and does not start with 62 — the server's formatter returns
the cleaned string unchanged (its prefixing branch requires at most 12
digits), so the two functions agree, refuting both that they agree only
when the input already starts with 62 and that every leading-0 input makes
them diverge. -/
theorem claim10_counterexample :
    formatPhoneNumber ("0123456789012".toList) =
      Except.ok (formatPhoneNumberHelpers ("0123456789012".toList)) ∧
    startsWith0 (cleanDigits ("0123456789012".toList)) = true ∧
    startsWith62 (cleanDigits ("0123456789012".toList)) = false := by
  refine ⟨rfl, by decide, by decide⟩

/-- Claim C10, amended: the two formatters return the same cleaned digit
string exactly when the cleaned input has 10 to 15 digits and either starts
with 62 or has more than 12 digits; they diverge on 10-to-12-digit inputs
not starting with 62 (the server prefixes 62, converting a leading 0) and on
digit counts outside 10..15 (the server throws while the helper returns the
cleaned digits). -/
theorem claim10_amended (phone : List Char) :
    (formatPhoneNumber phone = Except.ok (formatPhoneNumberHelpers phone)) ↔
    (10 ≤ (cleanDigits phone).length ∧ (cleanDigits phone).length ≤ 15 ∧
      (startsWith62 (cleanDigits phone) = true ∨ 12 < (cleanDigits phone).length)) := by
  unfold formatPhoneNumber formatPhoneNumberHelpers
  set c := cleanDigits phone with hc
  by_cases h1 : c.length < 10 ∨ 15 < c.length
  · rw [if_pos h1]
    constructor
    · intro h; exact absurd h (by simp)
    · intro h; omega
  · rw [if_neg h1]
    by_cases h2 : startsWith62 c = false ∧ c.length ≤ 12
    · rw [if_pos h2]
      have hne : ∀ x : List Char, ('6' :: '2' :: x) ≠ c := by
        intro x hx
        have h62 : startsWith62 c = true := by rw [← hx]; rfl
        rw [h2.1] at h62
        exact Bool.false_ne_true h62
      constructor
      · intro h
        by_cases h0 : startsWith0 c = true
        · rw [if_pos h0] at h
          exact absurd (Except.ok.inj h) (hne _)
        · rw [if_neg h0] at h
          exact absurd (Except.ok.inj h) (hne _)
      · intro h
        rcases h.2.2 with h62 | hgt
        · rw [h2.1] at h62; exact absurd h62 Bool.false_ne_true
        · exact absurd hgt (by omega)
    · rw [if_neg h2]
      simp only [true_iff]
      refine ⟨by omega, by omega, ?_⟩
      by_cases h62 : startsWith62 c = true
      · exact Or.inl h62
      · have h62f : startsWith62 c = false := by simpa using h62
        right
        by_contra hle
        exact h2 ⟨h62f, by omega⟩

/-- Claim C10 witness: the amended equivalence applied to a 62-prefixed
number on which the two formatters agree. -/
theorem claim10_witness :
    formatPhoneNumber ("6281234567890".toList) =
      Except.ok (formatPhoneNumberHelpers ("6281234567890".toList)) :=
  (claim10_amended ("6281234567890".toList)).mpr (by decide)

end WaOtp
